import Mathlib

/-!
# Verification of the TTL-YT-HELPER aggregation and orchestration core

A shallow embedding of the algorithmic core of the repository
(`src/app/api/gatherNews/route.ts`, `src/app/api/gatherAssets/route.ts`,
`src/app/api/generateContent/route.ts`, `src/app/api/testConnection/route.ts`)
together with theorems settling the frozen specification claims.

Modelling conventions:
* JavaScript strings are Lean `String`s; the JS string operations used by the
  code (`split`, `trim`, `toLowerCase`, `replace` with a string pattern) are
  re-implemented character-by-character below with the exact JS semantics
  (`split` keeps empty segments and never returns an empty array; `replace`
  with a string pattern replaces only the first occurrence).  JS `\w` is
  ASCII `[A-Za-z0-9_]` and Lean's `Char.isAlphanum` is likewise ASCII.
* JS number division in the similarity score is modelled as exact division
  in `ℚ`; for the tiny set cardinalities involved the float and rational
  comparisons against the literal `0.8` agree.
* `fetch`/`await` results are passed in explicitly: each adapter takes the
  outcome of its single outbound HTTP call as an argument, and the
  `Promise.allSettled` join of the news endpoint takes the list of settled
  outcomes (`Except` = rejected / fulfilled).
* `process.env.X` credentials are `Option String` arguments (`none` =
  variable not configured).
* `new Date(s).getTime()` is an uninterpreted parameter `getTime : String → Int`.
-/

namespace TTL

/-! ## JS string primitives -/

/-- JS `s.split(sep)` for a single-character separator: splits at every
occurrence, keeping empty segments; the result is never empty. -/
def splitCharGo (sep : Char) : List Char → List Char → List (List Char)
  | [], acc => [acc.reverse]
  | c :: rest, acc =>
    if c = sep then acc.reverse :: splitCharGo sep rest []
    else splitCharGo sep rest (c :: acc)

/-- JS `s.split(sep)` (single-character separator), producing strings. -/
def jsSplit (sep : Char) (s : String) : List String :=
  (splitCharGo sep s.toList []).map List.asString

/-- JS `String.prototype.trim` (restricted to ASCII whitespace). -/
def jsTrim (s : String) : String :=
  (((s.toList.dropWhile Char.isWhitespace).reverse.dropWhile Char.isWhitespace).reverse).asString

/-- JS `s.toLowerCase()` (ASCII). -/
def jsToLower (s : String) : String :=
  (s.toList.map Char.toLower).asString

/-! ## `gatherNews/route.ts` -/

/-- The normalized article shape (`interface NewsArticle`).  The nested
`source: { name }` object is flattened into `sourceName`. -/
structure NewsArticle where
  title : String
  description : String
  url : String
  urlToImage : Option String
  publishedAt : String
  sourceName : String
  content : String
deriving Repr, DecidableEq

/-- `new Set(...).add`: first occurrence wins, insertion order kept. -/
def jsSetInsert (seen : List String) (x : String) : List String :=
  if x ∈ seen then seen else seen ++ [x]

/-- `new Set(l)` as the insertion-ordered duplicate-free list of `l`'s
elements. -/
def jsSet (l : List String) : List String :=
  l.foldl jsSetInsert []

/-- `calculateSimilarity` (lines 225–233): Jaccard index of the
space-separated token sets of the two strings.  JS `Set`s are modelled by
`jsSet`; `Set.prototype.has` by decidable list membership; the size
quotient is taken in `ℚ`. -/
def calculateSimilarity (str1 str2 : String) : ℚ :=
  let set1 := jsSet (jsSplit ' ' str1)
  let set2 := jsSet (jsSplit ' ' str2)
  let intersection := set1.filter (fun x => decide (x ∈ set2))
  let union := jsSet (set1 ++ set2)
  (intersection.length : ℚ) / (union.length : ℚ)

/-- The title normalization performed inside `removeDuplicateArticles`
(line 204): `title.toLowerCase().replace(/[^\w\s]/g, '').trim()`. -/
def normalizeTitle (title : String) : String :=
  jsTrim (((jsToLower title).toList.filter
    (fun c => c.isAlphanum || c = '_' || c.isWhitespace)).asString)

/-- The loop body of `removeDuplicateArticles` (lines 199–222): `seen` is
the set of already-accepted normalized titles (the JS `Set<string>`,
modelled as a list used only through membership / existential search). -/
def removeDuplicateArticlesGo : List NewsArticle → List String → List NewsArticle
  | [], _ => []
  | a :: rest, seen =>
    if seen.any (fun s => calculateSimilarity (normalizeTitle a.title) s > 0.8) then
      removeDuplicateArticlesGo rest seen
    else
      a :: removeDuplicateArticlesGo rest (normalizeTitle a.title :: seen)

/-- `removeDuplicateArticles` (lines 199–222). -/
def removeDuplicateArticles (articles : List NewsArticle) : List NewsArticle :=
  removeDuplicateArticlesGo articles []

/-- Outcome of one `fetch` + `response.json()` round trip: `success payload`
is a 2xx response whose parsed body contributed `payload` (with `none`
standing for a JSON body in which the expected array field is absent, the
`|| []` case); `httpFailure` is a non-2xx response (`!response.ok`). -/
inductive FetchOutcome (α : Type) where
  | success (payload : Option α)
  | httpFailure (status : Nat) (statusText : String)
deriving Repr, DecidableEq

/-- Raw article shape of TheNewsAPI (`interface TheNewsAPIArticle`). -/
structure TheNewsAPIArticle where
  title : String
  description : String
  url : String
  image_url : Option String
  published_at : String
  source : String
  snippet : String
deriving Repr, DecidableEq

/-- Raw article shape of GNews (`interface GNewsArticle`); `source.name`
flattened. -/
structure GNewsArticle where
  title : String
  description : String
  url : String
  image : Option String
  publishedAt : String
  sourceName : String
  content : String
deriving Repr, DecidableEq

/-- `fetchNewsAPI` (lines 121–136).  `apiKey` is `process.env.NEWS_API_KEY`;
when it is not configured the function THROWS (`Except.error`), unlike the
other two adapters. -/
def fetchNewsAPI (apiKey : Option String)
    (outcome : FetchOutcome (List NewsArticle)) : Except String (List NewsArticle) :=
  match apiKey with
  | none => .error "NEWS_API_KEY not configured"
  | some _ =>
    match outcome with
    | .httpFailure status statusText =>
        .error ("NewsAPI failed: " ++ toString status ++ " " ++ statusText)
    | .success articles => .ok (articles.getD [])

/-- The per-article conversion in `fetchTheNewsAPI` (lines 157–165); JS
`article.snippet || article.description` is the empty-string-falsy choice. -/
def convertTheNewsAPIArticle (a : TheNewsAPIArticle) : NewsArticle :=
  { title := a.title
    description := a.description
    url := a.url
    urlToImage := a.image_url
    publishedAt := a.published_at
    sourceName := a.source
    content := if a.snippet = "" then a.description else a.snippet }

/-- `fetchTheNewsAPI` (lines 139–166): absent credential short-circuits to
an empty list. -/
def fetchTheNewsAPI (apiKey : Option String)
    (outcome : FetchOutcome (List TheNewsAPIArticle)) : Except String (List NewsArticle) :=
  match apiKey with
  | none => .ok []
  | some _ =>
    match outcome with
    | .httpFailure status statusText =>
        .error ("TheNewsAPI failed: " ++ toString status ++ " " ++ statusText)
    | .success data => .ok ((data.getD []).map convertTheNewsAPIArticle)

/-- The per-article conversion in `fetchGNewsAPI` (lines 187–195). -/
def convertGNewsArticle (a : GNewsArticle) : NewsArticle :=
  { title := a.title
    description := a.description
    url := a.url
    urlToImage := a.image
    publishedAt := a.publishedAt
    sourceName := a.sourceName
    content := a.content }

/-- `fetchGNewsAPI` (lines 169–196): absent credential short-circuits to an
empty list. -/
def fetchGNewsAPI (apiKey : Option String)
    (outcome : FetchOutcome (List GNewsArticle)) : Except String (List NewsArticle) :=
  match apiKey with
  | none => .ok []
  | some _ =>
    match outcome with
    | .httpFailure status statusText =>
        .error ("GNews failed: " ++ toString status ++ " " ++ statusText)
    | .success data => .ok ((data.getD []).map convertGNewsArticle)

/-- Parsed request body of the news endpoint (after defaulting). -/
structure GatherNewsRequest where
  topic : String
  category : String
  days : Int
deriving Repr, DecidableEq

/-- The `searchParams` echo object in the endpoint's response. -/
structure NewsSearchParams where
  topic : String
  category : String
  days : Int
  dateRange : String
deriving Repr, DecidableEq

/-- Success response body of the news endpoint (lines 97–108). -/
structure GatherNewsResult where
  success : Bool
  totalResults : Nat
  sourcesUsed : Nat
  articles : List NewsArticle
  searchParams : NewsSearchParams
deriving Repr, DecidableEq

/-- `result.status === 'rejected'` on a settled outcome. -/
def isRejected : Except String (List NewsArticle) → Bool
  | .error _ => true
  | .ok _ => false

/-- The article lists contributed by the fulfilled adapter calls whose value
is non-empty (lines 74–86): `Promise.allSettled` outcomes are consumed in
order, rejected outcomes and empty fulfilled values contribute nothing. -/
def collectArticles (outcomes : List (Except String (List NewsArticle))) : List NewsArticle :=
  (outcomes.filterMap fun r =>
    match r with
    | .ok v => if v.length > 0 then some v else none
    | .error _ => none).flatten

/-- `successfulSources` (lines 75–86): the number of fulfilled outcomes with
a non-empty value. -/
def countSuccessfulSources (outcomes : List (Except String (List NewsArticle))) : Nat :=
  (outcomes.filter fun r =>
    match r with
    | .ok v => v.length > 0
    | .error _ => false).length

/-- The dedup-then-sort part of the endpoint (lines 88–92): JS
`Array.prototype.sort` with comparator
`(a, b) => new Date(b.publishedAt).getTime() - new Date(a.publishedAt).getTime()`
is a stable descending sort, modelled by `List.mergeSort`;
`getTime` abstracts `new Date(·).getTime()`. -/
def gatherNewsSorted (getTime : String → Int)
    (outcomes : List (Except String (List NewsArticle))) : List NewsArticle :=
  (removeDuplicateArticles (collectArticles outcomes)).mergeSort
    (fun a b => getTime b.publishedAt ≤ getTime a.publishedAt)

/-- The body of the `try` block of `POST` (lines 56–108): aggregate, dedup,
sort, truncate to 20, and build the success response.  `dateRange` abstracts
the `${fromDateStr} to ${toDateStr}` string computed from the clock. -/
def gatherNewsCore (getTime : String → Int) (req : GatherNewsRequest) (dateRange : String)
    (outcomes : List (Except String (List NewsArticle))) : GatherNewsResult :=
  let topArticles := (gatherNewsSorted getTime outcomes).take 20
  { success := true
    totalResults := topArticles.length
    sourcesUsed := countSuccessfulSources outcomes
    articles := topArticles
    searchParams :=
      { topic := req.topic, category := req.category, days := req.days, dateRange := dateRange } }

/-- Response of the news endpoint: either the success body or the catch-all
500 body (lines 110–117). -/
inductive NewsResponse where
  | ok (result : GatherNewsResult)
  | serverError (error : String) (details : String)
deriving Repr, DecidableEq

/-- `POST` of `gatherNews/route.ts` (lines 55–118): `body` is the outcome of
`await request.json()` (the only statement of the `try` block that can
throw in the model); on its failure the catch clause produces the 500
response. -/
def gatherNewsPOST (getTime : String → Int) (body : Except String GatherNewsRequest)
    (dateRange : String) (outcomes : List (Except String (List NewsArticle))) : NewsResponse :=
  match body with
  | .error e => .serverError "Failed to gather news articles" e
  | .ok req => .ok (gatherNewsCore getTime req dateRange outcomes)

/-! ## `gatherAssets/route.ts` -/

/-- JS `x || y` for an optional string `x`: `undefined`/`null` and the empty
string are falsy. -/
def jsOrStr (x : Option String) (y : String) : String :=
  match x with
  | none => y
  | some s => if s = "" then y else s

/-- JS `s.split(', ')`, the two-character separator used for Pixabay tags. -/
def splitCommaSpaceGo : List Char → List Char → List (List Char)
  | [], acc => [acc.reverse]
  | ',' :: ' ' :: rest, acc => acc.reverse :: splitCommaSpaceGo rest []
  | c :: rest, acc => splitCommaSpaceGo rest (c :: acc)

/-- JS `s.split(', ')` producing strings. -/
def jsSplitCommaSpace (s : String) : List String :=
  (splitCommaSpaceGo s.toList []).map List.asString

/-- The normalized image record (`interface ImageAsset`). -/
structure ImageAsset where
  id : String
  url : String
  downloadUrl : String
  thumbnailUrl : String
  description : String
  tags : List String
  source : String
  photographer : Option String
  width : Nat
  height : Nat
deriving Repr, DecidableEq

/-- The normalized video record (`interface VideoAsset`). -/
structure VideoAsset where
  id : String
  url : String
  downloadUrl : String
  thumbnailUrl : String
  description : String
  tags : List String
  source : String
  duration : Nat
  width : Nat
  height : Nat
deriving Repr, DecidableEq

/-- Raw Pexels photo (`interface PexelsPhoto`, nested `src` flattened). -/
structure PexelsPhoto where
  id : Nat
  url : String
  srcLarge : String
  srcMedium : String
  alt : String
  photographer : String
  width : Nat
  height : Nat
deriving Repr, DecidableEq

/-- Raw Unsplash photo (`interface UnsplashPhoto`, nested objects
flattened); `alt_description`, `description` and `tags` can be absent at
runtime (the code guards all three). -/
structure UnsplashPhoto where
  id : String
  linksHtml : String
  urlsRegular : String
  urlsSmall : String
  alt_description : Option String
  description : Option String
  userName : String
  tags : Option (List String)
  width : Nat
  height : Nat
deriving Repr, DecidableEq

/-- Raw Pixabay photo (`interface PixabayPhoto`); `tags` can be absent at
runtime (the code uses `photo.tags?.split(...)`). -/
structure PixabayPhoto where
  id : Nat
  pageURL : String
  largeImageURL : String
  webformatURL : String
  tags : Option String
  user : String
  imageWidth : Nat
  imageHeight : Nat
deriving Repr, DecidableEq

/-- Raw Pexels video (`interface PexelsVideo`); `video_files` is the list of
file links, `user.name` and `duration` can be absent (guarded by `?.`/`||`). -/
structure PexelsVideo where
  id : Nat
  url : String
  image : String
  userName : Option String
  duration : Option Nat
  width : Nat
  height : Nat
  videoFileLinks : List String
deriving Repr, DecidableEq

/-- `fetchPexelsImages` (lines 197–232): absent `PEXELS_API_KEY` yields `[]`. -/
def fetchPexelsImages (apiKey : Option String) (keywords : List String)
    (outcome : FetchOutcome (List PexelsPhoto)) : Except String (List ImageAsset) :=
  match apiKey with
  | none => .ok []
  | some _ =>
    match outcome with
    | .httpFailure status _ => .error ("Pexels Images API failed: " ++ toString status)
    | .success photos => .ok ((photos.getD []).map fun photo =>
        { id := "pexels-img-" ++ toString photo.id
          url := photo.url
          downloadUrl := photo.srcLarge
          thumbnailUrl := photo.srcMedium
          description := if photo.alt = "" then "Image by " ++ photo.photographer else photo.alt
          tags := keywords
          source := "Pexels"
          photographer := some photo.photographer
          width := photo.width
          height := photo.height })

/-- `fetchUnsplashImages` (lines 235–270): absent `UNSPLASH_ACCESS_KEY`
yields `[]`.  `alt_description || description || fallback` is the JS falsy
chain; `tags?.map(...) || keywords` only falls back when `tags` is absent
(an empty array is truthy in JS). -/
def fetchUnsplashImages (apiKey : Option String) (keywords : List String)
    (outcome : FetchOutcome (List UnsplashPhoto)) : Except String (List ImageAsset) :=
  match apiKey with
  | none => .ok []
  | some _ =>
    match outcome with
    | .httpFailure status _ => .error ("Unsplash API failed: " ++ toString status)
    | .success photos => .ok ((photos.getD []).map fun photo =>
        { id := "unsplash-img-" ++ photo.id
          url := photo.linksHtml
          downloadUrl := photo.urlsRegular
          thumbnailUrl := photo.urlsSmall
          description :=
            jsOrStr photo.alt_description (jsOrStr photo.description ("Photo by " ++ photo.userName))
          tags := match photo.tags with
                  | none => keywords
                  | some ts => ts
          source := "Unsplash"
          photographer := some photo.userName
          width := photo.width
          height := photo.height })

/-- `fetchPixabayImages` (lines 273–304): absent `PIXABAY_API_KEY` yields
`[]`. -/
def fetchPixabayImages (apiKey : Option String) (keywords : List String)
    (outcome : FetchOutcome (List PixabayPhoto)) : Except String (List ImageAsset) :=
  match apiKey with
  | none => .ok []
  | some _ =>
    match outcome with
    | .httpFailure status _ => .error ("Pixabay API failed: " ++ toString status)
    | .success photos => .ok ((photos.getD []).map fun photo =>
        { id := "pixabay-img-" ++ toString photo.id
          url := photo.pageURL
          downloadUrl := photo.largeImageURL
          thumbnailUrl := photo.webformatURL
          description := jsOrStr photo.tags (String.intercalate ", " keywords)
          tags := match photo.tags with
                  | none => keywords
                  | some t => jsSplitCommaSpace t
          source := "Pixabay"
          photographer := some photo.user
          width := photo.imageWidth
          height := photo.imageHeight })

/-- `fetchPexelsVideos` (lines 307–341): absent `PEXELS_API_KEY` yields
`[]`; `video_files[0]?.link || ''` and `duration || 0` are the JS guards. -/
def fetchPexelsVideos (apiKey : Option String) (keywords : List String)
    (outcome : FetchOutcome (List PexelsVideo)) : Except String (List VideoAsset) :=
  match apiKey with
  | none => .ok []
  | some _ =>
    match outcome with
    | .httpFailure status _ => .error ("Pexels Videos API failed: " ++ toString status)
    | .success videos => .ok ((videos.getD []).map fun video =>
        { id := "pexels-vid-" ++ toString video.id
          url := video.url
          downloadUrl := (video.videoFileLinks.headD "")
          thumbnailUrl := video.image
          description := "Video by " ++ (video.userName.getD "Unknown")
          tags := keywords
          source := "Pexels"
          duration := video.duration.getD 0
          width := video.width
          height := video.height })

/-- The dedup key of `removeDuplicateImages` (line 349):
`image.downloadUrl.split('?')[0]`, i.e. everything before the first `?`. -/
def urlKey (downloadUrl : String) : String :=
  ((splitCharGo '?' downloadUrl.toList []).headD []).asString

/-- The loop of `removeDuplicateImages` (lines 344–357); `seen` is the JS
`Set<string>` of already-seen URL keys. -/
def removeDuplicateImagesGo : List ImageAsset → List String → List ImageAsset
  | [], _ => []
  | image :: rest, seen =>
    if urlKey image.downloadUrl ∈ seen then removeDuplicateImagesGo rest seen
    else image :: removeDuplicateImagesGo rest (urlKey image.downloadUrl :: seen)

/-- `removeDuplicateImages` (lines 344–357). -/
def removeDuplicateImages (images : List ImageAsset) : List ImageAsset :=
  removeDuplicateImagesGo images []

/-! ## `generateContent/route.ts` -/

/-- JS `s.split('###')`, the section separator of the Gemini response. -/
def splitHashesGo : List Char → List Char → List (List Char)
  | [], acc => [acc.reverse]
  | '#' :: '#' :: '#' :: rest, acc => acc.reverse :: splitHashesGo rest []
  | c :: rest, acc => splitHashesGo rest (c :: acc)

/-- Removal of the first occurrence of `pat` from a character list, the
effect of JS `s.replace(pat, '')` for a plain-string pattern (only the
first occurrence is replaced). -/
def removeFirstList (pat : List Char) : List Char → List Char
  | [] => []
  | c :: rest =>
    if pat.isPrefixOf (c :: rest) then (c :: rest).drop pat.length
    else c :: removeFirstList pat rest

/-- JS `s.replace(pat, '')` for a plain-string pattern. -/
def jsRemoveFirst (s pat : String) : String :=
  (removeFirstList pat.toList s.toList).asString

/-- The parsed script package returned by `generateWithGemini`. -/
structure GeminiResponse where
  titles : List String
  script : String
  brollKeywords : List String
  imageConcepts : List String
  editingGuide : String
deriving Repr, DecidableEq

/-- The parsing of a successful Gemini reply (lines 148–156); JS
`filter(Boolean)` on strings drops empty segments, and the `|| []` / `|| ''`
fallbacks fire when the optional chain on a missing section is undefined. -/
def parseGemini (generatedText : String) : GeminiResponse :=
  let sections := (splitHashesGo generatedText.toList []).map List.asString
  { titles := match sections.get? 1 with
      | some s => (jsSplit '\n' (jsTrim (jsRemoveFirst s "TITLES"))).filter (· ≠ "")
      | none => []
    script := match sections.get? 2 with
      | some s => jsTrim (jsRemoveFirst s "SCRIPT")
      | none => ""
    brollKeywords := match sections.get? 3 with
      | some s => (jsSplit ',' (jsTrim (jsRemoveFirst s "BROLL_KEYWORDS"))).map jsTrim
      | none => []
    imageConcepts := match sections.get? 4 with
      | some s => (jsSplit ',' (jsTrim (jsRemoveFirst s "IMAGE_CONCEPTS"))).map jsTrim
      | none => []
    editingGuide := match sections.get? 5 with
      | some s => jsTrim (jsRemoveFirst s "EDITING_GUIDE")
      | none => "" }

/-- The part of the fallback script before the first `${topic}`
interpolation. -/
def fallbackScriptIntro : String :=
  "Welcome to TheTechLounge, where we explore the technologies shaping our future.\n\nToday, we're diving deep into "

/-- The part of the fallback script between the two `${topic}`
interpolations. -/
def fallbackScriptMid : String :=
  ", a development that's not just changing how we work, but fundamentally altering the fabric of our digital society.\n\nIn the sprawling landscape of modern technology, few developments have captured our collective imagination quite like this. But beyond the headlines and the hype, what does this really mean for you, for me, and for the future we're building together?\n\nLet's start with the basics. "

/-- The part of the fallback script after the second `${topic}`
interpolation. -/
def fallbackScriptTail : String :=
  " represents a convergence of multiple technological streams that have been developing independently for decades. It's the culmination of advances in computing power, algorithmic sophistication, and our growing understanding of complex systems.\n\nBut here's what makes this particularly fascinating: the second-order effects. While everyone is focused on the immediate applications, the real transformation is happening in the spaces between technologies, in the unexpected connections and emergent behaviors that arise when these systems interact.\n\nConsider the implications for creativity, for human agency, for the very nature of work itself. We're not just talking about automation replacing manual labor – we're looking at a fundamental shift in how value is created and distributed in our economy.\n\nThe question isn't whether this technology will change everything – it's how we adapt to ensure that change serves humanity's best interests. And that's a conversation we all need to be part of.\n\nThank you for joining me on this exploration. What aspects of this topic are you most curious about? Let me know in the comments below, and I'll see you in the next video."

/-- The fixed fallback package of the `catch` clause of `generateWithGemini`
(lines 165–219), with the two `${topic}` interpolations of the script. -/
def geminiFallback (topic : String) : GeminiResponse :=
  { titles :=
      [ "The Future of AI: What You Need to Know"
      , "Breaking Down the Latest Tech Revolution"
      , "How AI is Changing Everything"
      , "The Technology That Will Define Tomorrow"
      , "Understanding the AI Revolution" ]
    script :=
      fallbackScriptIntro ++ topic ++ fallbackScriptMid ++ topic ++ fallbackScriptTail
    brollKeywords :=
      [ "abstract data visualization"
      , "close up of computer motherboard"
      , "person looking thoughtfully at screen"
      , "futuristic city skyline at night"
      , "hands typing on keyboard"
      , "server room with blinking lights"
      , "digital network connections"
      , "artificial intelligence concept"
      , "technology innovation lab"
      , "modern office workspace" ]
    imageConcepts :=
      [ "A glowing blue abstract neural network inside a glass human head against a dark background"
      , "A massive library of floating books made of light with servers in the background"
      , "A robot hand and a human hand about to touch in the style of Michelangelo with circuits visible under the skin"
      , "A single illuminated data stream flowing through a dark, abstract digital space"
      , "A futuristic cityscape with holographic data flowing between buildings" ]
    editingGuide :=
      "[00:00] - [Intro Music Fades In] ==> VISUAL: Show channel logo animation.\n[00:05] - \"Welcome to TheTechLounge...\" ==> VISUAL: Start with [BROLL: futuristic city skyline at night].\n[00:15] - \"Today, we're diving deep into...\" ==> VISUAL: Cross-dissolve to [IMAGE: glowing blue abstract neural network].\n[00:30] - \"In the sprawling landscape...\" ==> VISUAL: Show [BROLL: abstract data visualization].\n[00:45] - \"Let's start with the basics...\" ==> VISUAL: [BROLL: close up of computer motherboard].\n[01:00] - \"But here's what makes this particularly fascinating...\" ==> VISUAL: [IMAGE: massive library of floating books].\n[01:15] - \"Consider the implications for creativity...\" ==> VISUAL: [IMAGE: robot hand and human hand about to touch].\n[01:30] - \"The question isn't whether...\" ==> VISUAL: [BROLL: person looking thoughtfully at screen].\n[01:45] - \"Thank you for joining me...\" ==> VISUAL: Return to presenter with subtle background." }

/-- Outcome of the Gemini call of `generateWithGemini`: `ok text` is a 2xx
response whose JSON carried `candidates[0].content.parts[0].text = text`;
`failed` is any throw inside the `try` block (fetch rejection, non-2xx
response, or a response body without that structure). -/
inductive GeminiCallOutcome where
  | ok (generatedText : String)
  | failed
deriving Repr, DecidableEq

/-- `generateWithGemini` (lines 74–220): parse on success, fixed fallback
package on any failure. -/
def generateWithGemini (topic _format : String) (outcome : GeminiCallOutcome) : GeminiResponse :=
  match outcome with
  | .ok text => parseGemini text
  | .failed => geminiFallback topic

/-- `downloadBrollVideos` (lines 228–232): one mock video buffer per keyword,
capped at 5.  Buffers are modelled by their contents as strings. -/
def downloadBrollVideos (keywords : List String) : List String :=
  (keywords.take 5).map (fun _ => "mock-video-data")

/-- `generateAIImages` (lines 234–238): one mock image buffer per concept,
capped at 5. -/
def generateAIImages (concepts : List String) : List String :=
  (concepts.take 5).map (fun _ => "mock-image-data")

/-- The `assets.forEach((asset, index) => archive.append(..., name = ...))`
loop of `createVisualsZip` (lines 250–252), carrying the running index. -/
def createVisualsZipGo (index : Nat) : List String → List (String × String)
  | [] => []
  | asset :: rest =>
    ("asset_" ++ toString (index + 1) ++ "." ++ (if index < 5 then "mp4" else "png"), asset)
      :: createVisualsZipGo (index + 1) rest

/-- `createVisualsZip` (lines 240–256), modelled as the ordered list of
(entry name, entry contents) pairs appended to the archive. -/
def createVisualsZip (assets : List String) : List (String × String) :=
  createVisualsZipGo 0 assets

/-! ## `testConnection/route.ts` -/

/-- Outcome of one probe `fetch` in the credential test endpoint:
`ok validStructure` is a 2xx response (`validStructure` records whether the
JSON body has `candidates[0].content`, the extra check of the Gemini probe);
`httpError` a non-2xx response; `networkError` a rejected fetch. -/
inductive ProbeOutcome where
  | ok (validStructure : Bool)
  | httpError (status : Nat) (statusText : String)
  | networkError
deriving Repr, DecidableEq

/-- The status-code-to-message mapping of `testGeminiConnection`
(lines 86–94). -/
def geminiStatusMessage (status : Nat) (statusText : String) : String :=
  if status = 400 then "Invalid API key or request format"
  else if status = 403 then "API key does not have permission or quota exceeded"
  else if status = 404 then "Model not available for this API key"
  else "API error: " ++ toString status ++ " " ++ statusText

/-- Result shape of `testGeminiConnection` and of the endpoint body. -/
structure ConnResult where
  success : Bool
  error : String
deriving Repr, DecidableEq

/-- The fixed model list of `testGeminiConnection` (lines 41–46). -/
def modelsToTry : List String :=
  ["gemini-2.0-flash-exp", "gemini-1.5-pro", "gemini-1.5-flash", "gemini-pro"]

/-- The `for (const model of modelsToTry)` loop of `testGeminiConnection`
(lines 50–109): `probe` gives each model's fetch outcome, `firstModel` is
`modelsToTry[0]` (only its failure message is stored), `lastError` the
accumulator.  JS `lastError || default` treats the empty string as falsy. -/
def testGeminiGo (probe : String → ProbeOutcome) (firstModel : String) :
    List String → String → ConnResult
  | [], lastError =>
    { success := false
      error := if lastError = ""
               then "No compatible Gemini models available for this API key"
               else lastError }
  | model :: rest, lastError =>
    match probe model with
    | .ok true => { success := true, error := "" }
    | .ok false => testGeminiGo probe firstModel rest lastError
    | .httpError status statusText =>
        testGeminiGo probe firstModel rest
          (if model = firstModel then geminiStatusMessage status statusText else lastError)
    | .networkError =>
        testGeminiGo probe firstModel rest
          (if model = firstModel then "Network error or invalid API key" else lastError)

/-- `testGeminiConnection` (lines 39–110). -/
def testGeminiConnection (probe : String → ProbeOutcome) : ConnResult :=
  testGeminiGo probe (modelsToTry.headD "") modelsToTry ""

/-- `testHuggingFaceConnection` (lines 112–130): 2xx or 503 ("model is
loading") count as success, anything else fails. -/
def testHuggingFaceConnection (outcome : ProbeOutcome) : Bool :=
  match outcome with
  | .ok _ => true
  | .httpError status _ => status = 503
  | .networkError => false

/-- `testPexelsConnection` (lines 132–145). -/
def testPexelsConnection (outcome : ProbeOutcome) : Bool :=
  match outcome with
  | .ok _ => true
  | .httpError _ _ => false
  | .networkError => false

/-- `POST` of `testConnection/route.ts` (lines 3–37): `apiKey = none` models
an absent key and `some ""` an empty one, both falsy for `if (!apiKey)`.
The three probe outcomes stand for the single outbound call the selected
service would make. -/
def testConnectionPOST (service : String) (apiKey : Option String)
    (geminiProbe : String → ProbeOutcome) (hfOutcome pexelsOutcome : ProbeOutcome) :
    ConnResult :=
  match apiKey with
  | none => { success := false, error := "API key is required" }
  | some key =>
    if key = "" then { success := false, error := "API key is required" }
    else if service = "gemini" then
      let r := testGeminiConnection geminiProbe
      { success := r.success, error := r.error }
    else if service = "huggingface" then
      let s := testHuggingFaceConnection hfOutcome
      { success := s, error := if s then "" else "Failed to connect to Hugging Face API" }
    else if service = "pexels" then
      let s := testPexelsConnection pexelsOutcome
      { success := s, error := if s then "" else "Failed to connect to Pexels API" }
    else { success := false, error := "Unknown service" }

/-! ## Lemmas on the string primitives and `jsSet` -/

theorem splitCharGo_ne_nil (sep : Char) (cs : List Char) :
    ∀ acc, splitCharGo sep cs acc ≠ [] := by
  induction cs with
  | nil => intro acc; simp [splitCharGo]
  | cons c rest ih =>
    intro acc
    unfold splitCharGo
    by_cases h : c = sep <;> simp [h, ih]

theorem jsSplit_ne_nil (sep : Char) (s : String) : jsSplit sep s ≠ [] := by
  intro h
  rw [jsSplit, List.map_eq_nil_iff] at h
  exact splitCharGo_ne_nil sep s.toList [] h

theorem mem_jsSetInsert {seen : List String} {a x : String} :
    x ∈ jsSetInsert seen a ↔ x ∈ seen ∨ x = a := by
  unfold jsSetInsert
  split
  · next h =>
    constructor
    · exact Or.inl
    · rintro (hx | rfl)
      · exact hx
      · exact h
  · simp

theorem nodup_jsSetInsert {seen : List String} (a : String) (h : seen.Nodup) :
    (jsSetInsert seen a).Nodup := by
  unfold jsSetInsert
  split
  · exact h
  · next ha => simp [List.nodup_append, h, ha]

theorem mem_foldl_jsSetInsert (l : List String) :
    ∀ (acc : List String) (x : String),
      x ∈ l.foldl jsSetInsert acc ↔ x ∈ acc ∨ x ∈ l := by
  induction l with
  | nil => intro acc x; simp
  | cons a rest ih =>
    intro acc x
    simp only [List.foldl_cons, ih, mem_jsSetInsert, List.mem_cons]
    tauto

theorem nodup_foldl_jsSetInsert (l : List String) :
    ∀ acc : List String, acc.Nodup → (l.foldl jsSetInsert acc).Nodup := by
  induction l with
  | nil => intro acc h; simpa using h
  | cons a rest ih => intro acc h; exact ih _ (nodup_jsSetInsert a h)

theorem mem_jsSet {l : List String} {x : String} : x ∈ jsSet l ↔ x ∈ l := by
  simp [jsSet, mem_foldl_jsSetInsert]

theorem nodup_jsSet (l : List String) : (jsSet l).Nodup :=
  nodup_foldl_jsSetInsert l [] List.nodup_nil

theorem jsSet_toFinset (l : List String) : (jsSet l).toFinset = l.toFinset := by
  ext x
  simp [List.mem_toFinset, mem_jsSet]

/-- The whitespace-token set of one similarity operand, as a `Finset`. -/
def tokensFinset (s : String) : Finset String :=
  (jsSplit ' ' s).toFinset

theorem tokensFinset_nonempty (s : String) : (tokensFinset s).Nonempty := by
  obtain ⟨t, rest, h⟩ := List.exists_cons_of_ne_nil (jsSplit_ne_nil ' ' s)
  exact ⟨t, by simp [tokensFinset, h]⟩

/-- The intersection length computed by `calculateSimilarity` is the card of
the `Finset` intersection of the token sets. -/
theorem length_filter_jsSet (l1 l2 : List String) :
    ((jsSet l1).filter (fun x => decide (x ∈ jsSet l2))).length =
      (l1.toFinset ∩ l2.toFinset).card := by
  have nd : ((jsSet l1).filter (fun x => decide (x ∈ jsSet l2))).Nodup :=
    (nodup_jsSet l1).filter _
  have hts : ((jsSet l1).filter (fun x => decide (x ∈ jsSet l2))).toFinset =
      l1.toFinset ∩ l2.toFinset := by
    ext x
    simp [List.mem_toFinset, List.mem_filter, mem_jsSet]
  rw [← List.toFinset_card_of_nodup nd, hts]

/-- The union length computed by `calculateSimilarity` is the card of the
`Finset` union of the token sets. -/
theorem length_union_jsSet (l1 l2 : List String) :
    (jsSet (jsSet l1 ++ jsSet l2)).length = (l1.toFinset ∪ l2.toFinset).card := by
  have nd : (jsSet (jsSet l1 ++ jsSet l2)).Nodup := nodup_jsSet _
  have hts : (jsSet (jsSet l1 ++ jsSet l2)).toFinset = l1.toFinset ∪ l2.toFinset := by
    ext x
    simp [List.mem_toFinset, mem_jsSet]
  rw [← List.toFinset_card_of_nodup nd, hts]

/-- `calculateSimilarity` in `Finset` form. -/
theorem calculateSimilarity_eq_finset (s1 s2 : String) :
    calculateSimilarity s1 s2 =
      ((tokensFinset s1 ∩ tokensFinset s2).card : ℚ) /
        ((tokensFinset s1 ∪ tokensFinset s2).card : ℚ) := by
  unfold calculateSimilarity tokensFinset
  dsimp only
  rw [length_filter_jsSet, length_union_jsSet]

theorem calculateSimilarity_comm (s1 s2 : String) :
    calculateSimilarity s1 s2 = calculateSimilarity s2 s1 := by
  rw [calculateSimilarity_eq_finset, calculateSimilarity_eq_finset,
    Finset.inter_comm, Finset.union_comm]

theorem calculateSimilarity_nonneg (s1 s2 : String) : 0 ≤ calculateSimilarity s1 s2 := by
  rw [calculateSimilarity_eq_finset]
  exact div_nonneg (by positivity) (by positivity)

theorem unionCard_pos (s1 s2 : String) :
    0 < (tokensFinset s1 ∪ tokensFinset s2).card := by
  apply Finset.card_pos.mpr
  exact (tokensFinset_nonempty s1).mono Finset.subset_union_left

theorem calculateSimilarity_le_one (s1 s2 : String) : calculateSimilarity s1 s2 ≤ 1 := by
  rw [calculateSimilarity_eq_finset]
  rw [div_le_one (by exact_mod_cast unionCard_pos s1 s2)]
  exact_mod_cast Finset.card_le_card
    (le_trans Finset.inter_subset_left Finset.subset_union_left)

/-! ## Lemmas on `removeDuplicateArticles` -/

/-- Every article accepted by the dedup loop has similarity at most 0.8 with
every normalized title that was in `seen` when the loop ran. -/
theorem removeDuplicateArticlesGo_sim_le (l : List NewsArticle) :
    ∀ (seen : List String) (s : String), s ∈ seen →
      ∀ b ∈ removeDuplicateArticlesGo l seen,
        calculateSimilarity (normalizeTitle b.title) s ≤ 0.8 := by
  induction l with
  | nil => intro seen s _ b hb; simp [removeDuplicateArticlesGo] at hb
  | cons a rest ih =>
    intro seen s hs b hb
    rw [removeDuplicateArticlesGo] at hb
    by_cases hdup : seen.any (fun t => calculateSimilarity (normalizeTitle a.title) t > 0.8)
    · rw [if_pos hdup] at hb
      exact ih seen s hs b hb
    · rw [if_neg hdup] at hb
      rcases List.mem_cons.mp hb with rfl | hb2
      · have hall : ∀ t ∈ seen, ¬ calculateSimilarity (normalizeTitle b.title) t > 0.8 := by
          intro t ht
          intro hgt
          exact hdup (List.any_eq_true.mpr ⟨t, ht, by simpa using hgt⟩)
        exact le_of_not_lt (hall s hs)
      · exact ih _ s (List.mem_cons_of_mem _ hs) b hb2

/-- Any two distinct survivors of the dedup loop have similarity at most
0.8 (in both comparison orders). -/
theorem removeDuplicateArticlesGo_pairwise (l : List NewsArticle) :
    ∀ seen : List String,
      (removeDuplicateArticlesGo l seen).Pairwise
        (fun a b => calculateSimilarity (normalizeTitle b.title) (normalizeTitle a.title) ≤ 0.8) := by
  induction l with
  | nil => intro seen; simp [removeDuplicateArticlesGo]
  | cons a rest ih =>
    intro seen
    rw [removeDuplicateArticlesGo]
    by_cases hdup : seen.any (fun t => calculateSimilarity (normalizeTitle a.title) t > 0.8)
    · rw [if_pos hdup]; exact ih seen
    · rw [if_neg hdup]
      refine List.Pairwise.cons ?_ (ih _)
      intro b hb
      exact removeDuplicateArticlesGo_sim_le rest _ (normalizeTitle a.title)
        (List.mem_cons_self _ _) b hb

/-! ## Lemmas on `removeDuplicateImages` -/

theorem removeDuplicateImagesGo_sublist (l : List ImageAsset) :
    ∀ seen : List String, List.Sublist (removeDuplicateImagesGo l seen) l := by
  induction l with
  | nil => intro seen; simp [removeDuplicateImagesGo]
  | cons image rest ih =>
    intro seen
    rw [removeDuplicateImagesGo]
    by_cases h : urlKey image.downloadUrl ∈ seen
    · rw [if_pos h]; exact (ih seen).cons image
    · rw [if_neg h]; exact (ih _).cons₂ image

/-- Every survivor's key was unseen when the loop started, and the survivor
is the first element of the input carrying its key. -/
theorem removeDuplicateImagesGo_first (l : List ImageAsset) :
    ∀ (seen : List String) (b : ImageAsset), b ∈ removeDuplicateImagesGo l seen →
      urlKey b.downloadUrl ∉ seen ∧
      l.find? (fun x => decide (urlKey x.downloadUrl = urlKey b.downloadUrl)) = some b := by
  induction l with
  | nil => intro seen b hb; simp [removeDuplicateImagesGo] at hb
  | cons image rest ih =>
    intro seen b hb
    rw [removeDuplicateImagesGo] at hb
    by_cases h : urlKey image.downloadUrl ∈ seen
    · rw [if_pos h] at hb
      obtain ⟨hnot, hfind⟩ := ih seen b hb
      have hne : urlKey image.downloadUrl ≠ urlKey b.downloadUrl := by
        intro he; exact hnot (he ▸ h)
      refine ⟨hnot, ?_⟩
      rw [List.find?_cons_of_neg _ (by simpa using hne)]
      exact hfind
    · rw [if_neg h] at hb
      rcases List.mem_cons.mp hb with rfl | hb2
      · exact ⟨h, by rw [List.find?_cons_of_pos _ (by simp)]⟩
      · obtain ⟨hnot, hfind⟩ := ih _ b hb2
        have hne : urlKey image.downloadUrl ≠ urlKey b.downloadUrl := by
          intro he
          exact hnot (by rw [← he]; exact List.mem_cons_self _ _)
        refine ⟨fun hs => hnot (List.mem_cons_of_mem _ hs), ?_⟩
        rw [List.find?_cons_of_neg _ (by simpa using hne)]
        exact hfind

/-- Survivors have pairwise distinct keys. -/
theorem removeDuplicateImagesGo_pairwise (l : List ImageAsset) :
    ∀ seen : List String,
      (removeDuplicateImagesGo l seen).Pairwise
        (fun a b => urlKey a.downloadUrl ≠ urlKey b.downloadUrl) := by
  induction l with
  | nil => intro seen; simp [removeDuplicateImagesGo]
  | cons image rest ih =>
    intro seen
    rw [removeDuplicateImagesGo]
    by_cases h : urlKey image.downloadUrl ∈ seen
    · rw [if_pos h]; exact ih seen
    · rw [if_neg h]
      refine List.Pairwise.cons ?_ (ih _)
      intro b hb he
      exact (removeDuplicateImagesGo_first rest _ b hb).1 (he ▸ List.mem_cons_self _ _)

/-- Every input key is represented among the survivors (or was already
seen). -/
theorem removeDuplicateImagesGo_covers (l : List ImageAsset) :
    ∀ (seen : List String) (a : ImageAsset), a ∈ l →
      urlKey a.downloadUrl ∈ seen ∨
      ∃ b ∈ removeDuplicateImagesGo l seen, urlKey b.downloadUrl = urlKey a.downloadUrl := by
  induction l with
  | nil => intro seen a ha; simp at ha
  | cons image rest ih =>
    intro seen a ha
    rw [removeDuplicateImagesGo]
    by_cases h : urlKey image.downloadUrl ∈ seen
    · rw [if_pos h]
      rcases List.mem_cons.mp ha with heq | ha2
      · exact Or.inl (heq ▸ h)
      · exact ih seen a ha2
    · rw [if_neg h]
      rcases List.mem_cons.mp ha with heq | ha2
      · exact Or.inr ⟨image, List.mem_cons_self _ _, by rw [heq]⟩
      · rcases ih (urlKey image.downloadUrl :: seen) a ha2 with hseen | ⟨b, hb, he⟩
        · rcases List.mem_cons.mp hseen with he2 | hs
          · exact Or.inr ⟨image, List.mem_cons_self _ _, he2.symm⟩
          · exact Or.inl hs
        · exact Or.inr ⟨b, List.mem_cons_of_mem _ hb, he⟩

/-! ## Lemmas on the news aggregation -/

theorem collectArticles_eq_nil {outcomes : List (Except String (List NewsArticle))}
    (h : ∀ r ∈ outcomes, r = Except.ok [] ∨ isRejected r = true) :
    collectArticles outcomes = [] := by
  unfold collectArticles
  have : outcomes.filterMap (fun r =>
      match r with
      | .ok v => if v.length > 0 then some v else none
      | .error _ => none) = [] := by
    rw [List.filterMap_eq_nil_iff]
    intro r hr
    rcases h r hr with rfl | herr
    · simp
    · match r, herr with
      | .error e, _ => simp
  rw [this]
  rfl

theorem countSuccessfulSources_eq_zero {outcomes : List (Except String (List NewsArticle))}
    (h : ∀ r ∈ outcomes, r = Except.ok [] ∨ isRejected r = true) :
    countSuccessfulSources outcomes = 0 := by
  unfold countSuccessfulSources
  rw [List.length_eq_zero, List.filter_eq_nil_iff]
  intro r hr
  rcases h r hr with rfl | herr
  · simp
  · match r, herr with
    | .error e, _ => simp

/-- The comparator of the article sort, as used by `mergeSort`, is
transitive. -/
theorem newsLe_trans (getTime : String → Int) (a b c : NewsArticle) :
    (getTime b.publishedAt ≤ getTime a.publishedAt : Bool) →
    (getTime c.publishedAt ≤ getTime b.publishedAt : Bool) →
    (getTime c.publishedAt ≤ getTime a.publishedAt : Bool) := by
  simp only [decide_eq_true_eq]
  exact fun h1 h2 => le_trans h2 h1

/-- The comparator of the article sort is total. -/
theorem newsLe_total (getTime : String → Int) (a b : NewsArticle) :
    ((getTime b.publishedAt ≤ getTime a.publishedAt : Bool) ||
     (getTime a.publishedAt ≤ getTime b.publishedAt : Bool)) := by
  simp only [Bool.or_eq_true, decide_eq_true_eq]
  exact le_total _ _

theorem gatherNewsSorted_pairwise (getTime : String → Int)
    (outcomes : List (Except String (List NewsArticle))) :
    (gatherNewsSorted getTime outcomes).Pairwise
      (fun a b => getTime b.publishedAt ≤ getTime a.publishedAt) := by
  have h := @List.sorted_mergeSort NewsArticle
    (fun a b : NewsArticle => (getTime b.publishedAt ≤ getTime a.publishedAt : Bool))
    (newsLe_trans getTime) (newsLe_total getTime)
    (removeDuplicateArticles (collectArticles outcomes))
  exact h.imp (by simp only [decide_eq_true_eq]; exact id)

/-! ## Lemmas on the visuals archive -/

theorem createVisualsZipGo_getElem? (l : List String) :
    ∀ (start i : Nat),
      (createVisualsZipGo start l)[i]? =
        (l[i]?).map (fun a =>
          ("asset_" ++ toString (start + i + 1) ++ "." ++
            (if start + i < 5 then "mp4" else "png"), a)) := by
  induction l with
  | nil => intro start i; simp [createVisualsZipGo]
  | cons a rest ih =>
    intro start i
    match i with
    | 0 => simp [createVisualsZipGo]
    | i + 1 =>
      simp only [createVisualsZipGo, List.getElem?_cons_succ, ih (start + 1) i]
      have e1 : start + 1 + i = start + (i + 1) := by omega
      rw [e1]

/-! ## Claim C1 -/

/-- C1: when every settled provider outcome of the news endpoint is either
rejected or fulfilled with an empty list, the endpoint still answers with
the non-error body `success = true`, `articles = []`, `sourcesUsed = 0`
(and `totalResults = 0`); an error response arises exactly from a failing
`request.json()`, the only throwing statement of the `try` block. -/
theorem gatherNews_total_wipeout (getTime : String → Int) (req : GatherNewsRequest)
    (dateRange : String) (outcomes : List (Except String (List NewsArticle)))
    (h : ∀ r ∈ outcomes, r = Except.ok [] ∨ isRejected r = true) :
    gatherNewsPOST getTime (.ok req) dateRange outcomes =
      .ok { success := true, totalResults := 0, sourcesUsed := 0, articles := [],
            searchParams :=
              { topic := req.topic, category := req.category, days := req.days,
                dateRange := dateRange } } ∧
    ∀ e : String,
      gatherNewsPOST getTime (.error e) dateRange outcomes =
        .serverError "Failed to gather news articles" e := by
  refine ⟨?_, fun e => rfl⟩
  have hc := collectArticles_eq_nil h
  have hs := countSuccessfulSources_eq_zero h
  simp [gatherNewsPOST, gatherNewsCore, gatherNewsSorted, hc, hs,
    removeDuplicateArticles, removeDuplicateArticlesGo]

/-- Witness for C1: both adapters failing (one rejected, one fulfilled
empty) still yield the success body. -/
theorem gatherNews_total_wipeout_witness :
    gatherNewsPOST (fun _ => 0) (.ok ⟨"artificial intelligence", "technology", 1⟩) "d"
        [Except.error "NewsAPI failed: 401 Unauthorized", Except.ok []] =
      .ok { success := true, totalResults := 0, sourcesUsed := 0, articles := [],
            searchParams :=
              { topic := "artificial intelligence", category := "technology", days := 1,
                dateRange := "d" } } ∧
    ∀ e : String,
      gatherNewsPOST (fun _ => 0) (.error e) "d"
          [Except.error "NewsAPI failed: 401 Unauthorized", Except.ok []] =
        .serverError "Failed to gather news articles" e :=
  gatherNews_total_wipeout (fun _ => 0) ⟨"artificial intelligence", "technology", 1⟩ "d"
    [Except.error "NewsAPI failed: 401 Unauthorized", Except.ok []]
    (by
      intro r hr
      rcases List.mem_cons.mp hr with rfl | hr2
      · exact Or.inr rfl
      · rcases List.mem_cons.mp hr2 with rfl | hr3
        · exact Or.inl rfl
        · simp at hr3)

/-! ## Claim C2 -/

/-- C2: the news endpoint's article list is the 20-element truncation of the
descending-by-`publishedAt` sort of the deduplicated merge — so it has at
most 20 elements, is sorted descending, and every dropped article is no
newer than every kept one (truncation after sort). -/
theorem gatherNews_sorted_capped (getTime : String → Int) (req : GatherNewsRequest)
    (dateRange : String) (outcomes : List (Except String (List NewsArticle))) :
    (gatherNewsCore getTime req dateRange outcomes).articles =
      (gatherNewsSorted getTime outcomes).take 20 ∧
    (gatherNewsCore getTime req dateRange outcomes).articles.length ≤ 20 ∧
    (gatherNewsCore getTime req dateRange outcomes).articles.Pairwise
      (fun a b => getTime b.publishedAt ≤ getTime a.publishedAt) ∧
    ∀ a ∈ (gatherNewsCore getTime req dateRange outcomes).articles,
      ∀ b ∈ (gatherNewsSorted getTime outcomes).drop 20,
        getTime b.publishedAt ≤ getTime a.publishedAt := by
  have harts : (gatherNewsCore getTime req dateRange outcomes).articles =
      (gatherNewsSorted getTime outcomes).take 20 := rfl
  have hp := gatherNewsSorted_pairwise getTime outcomes
  refine ⟨harts, ?_, ?_, ?_⟩
  · rw [harts]
    simp [List.length_take]
  · rw [harts]
    exact List.Pairwise.sublist (List.take_sublist _ _) hp
  · intro a ha b hb
    rw [harts] at ha
    have hsplit : (gatherNewsSorted getTime outcomes).take 20 ++
        (gatherNewsSorted getTime outcomes).drop 20 = gatherNewsSorted getTime outcomes :=
      List.take_append_drop _ _
    rw [← hsplit] at hp
    exact (List.pairwise_append.mp hp).2.2 a ha b hb

/-! ## Claim C3 -/

/-- C3 counterexample: `fetchNewsAPI` with its credential absent throws
(`Except.error`) instead of returning the empty list, refuting "for every
source adapter, a missing credential yields an empty list". -/
theorem fetchNewsAPI_missing_key_throws :
    fetchNewsAPI none (.success none) = Except.error "NEWS_API_KEY not configured" ∧
    fetchNewsAPI none (.success none) ≠ Except.ok [] := by
  refine ⟨rfl, ?_⟩
  simp [fetchNewsAPI]

/-- C3 (amended): every source adapter except `fetchNewsAPI` returns an
empty list when its provider credential is absent; `fetchNewsAPI` instead
throws `NEWS_API_KEY not configured` (which the `Promise.allSettled` join
then records as a rejected source). -/
theorem adapters_missing_key (kw : List String)
    (o0 : FetchOutcome (List NewsArticle))
    (o1 : FetchOutcome (List TheNewsAPIArticle))
    (o2 : FetchOutcome (List GNewsArticle))
    (o3 : FetchOutcome (List PexelsPhoto))
    (o4 : FetchOutcome (List UnsplashPhoto))
    (o5 : FetchOutcome (List PixabayPhoto))
    (o6 : FetchOutcome (List PexelsVideo)) :
    fetchTheNewsAPI none o1 = .ok [] ∧
    fetchGNewsAPI none o2 = .ok [] ∧
    fetchPexelsImages none kw o3 = .ok [] ∧
    fetchUnsplashImages none kw o4 = .ok [] ∧
    fetchPixabayImages none kw o5 = .ok [] ∧
    fetchPexelsVideos none kw o6 = .ok [] ∧
    fetchNewsAPI none o0 = .error "NEWS_API_KEY not configured" :=
  ⟨rfl, rfl, rfl, rfl, rfl, rfl, rfl⟩

/-! ## Claim C4 -/

/-- C4 counterexample: two titles with normalized-title Jaccard similarity
exactly 4/5 = 0.8 both survive dedup (the code drops only on similarity
strictly greater than 0.8), refuting "similarity strictly less than 0.8
for all surviving pairs". -/
theorem removeDuplicateArticles_boundary :
    removeDuplicateArticles
        [⟨"a b c d", "", "", none, "", "", ""⟩, ⟨"a b c d e", "", "", none, "", "", ""⟩] =
      [⟨"a b c d", "", "", none, "", "", ""⟩, ⟨"a b c d e", "", "", none, "", "", ""⟩] ∧
    calculateSimilarity (normalizeTitle "a b c d") (normalizeTitle "a b c d e") = 4 / 5 ∧
    ¬ ((4 : ℚ) / 5 < 0.8) := by
  have e1 : normalizeTitle "a b c d" = "a b c d" := by decide
  have e2 : normalizeTitle "a b c d e" = "a b c d e" := by decide
  have h1 : List.filter (fun x => decide (x ∈ jsSet (jsSplit ' ' "a b c d")))
      (jsSet (jsSplit ' ' "a b c d e")) = ["a", "b", "c", "d"] := by decide
  have h2 : jsSet (jsSet (jsSplit ' ' "a b c d e") ++ jsSet (jsSplit ' ' "a b c d")) =
      ["a", "b", "c", "d", "e"] := by decide
  have hsim : calculateSimilarity "a b c d e" "a b c d" = 4 / 5 := by
    simp only [calculateSimilarity, h1, h2]
    norm_num
  have hsim2 : calculateSimilarity "a b c d" "a b c d e" = 4 / 5 := by
    rw [calculateSimilarity_comm]
    exact hsim
  have hngt : ¬ ((4 : ℚ) / 5 > 0.8) := by norm_num
  refine ⟨?_, by rw [e1, e2]; exact hsim2, by norm_num⟩
  simp only [removeDuplicateArticles, removeDuplicateArticlesGo, List.any_nil,
    List.any_cons, Bool.or_false, e1, e2, hsim]
  rw [if_neg (by simp), if_neg (by simp [hngt])]

/-- C4 (amended): any two distinct articles surviving dedup have
normalized-title Jaccard similarity at most 0.8 (in both comparison
orders); a candidate is dropped exactly when some previously accepted
title exceeds the 0.8 threshold strictly. -/
theorem removeDuplicateArticles_pairwise (articles : List NewsArticle) :
    (removeDuplicateArticles articles).Pairwise
      (fun a b =>
        calculateSimilarity (normalizeTitle a.title) (normalizeTitle b.title) ≤ 0.8 ∧
        calculateSimilarity (normalizeTitle b.title) (normalizeTitle a.title) ≤ 0.8) := by
  have h := removeDuplicateArticlesGo_pairwise articles []
  exact h.imp (fun hab => ⟨by rw [calculateSimilarity_comm]; exact hab, hab⟩)

/-! ## Claim C5 -/

/-- C5: image dedup keys each record by its `downloadUrl` stripped of the
query string; the output is a subsequence of the input with pairwise
distinct keys, every input key is represented, each survivor is the first
input record bearing its key, and on the spec's example only the
first-seen record is kept. -/
theorem removeDuplicateImages_spec :
    (∀ images : List ImageAsset,
      List.Sublist (removeDuplicateImages images) images ∧
      (removeDuplicateImages images).Pairwise
        (fun a b => urlKey a.downloadUrl ≠ urlKey b.downloadUrl) ∧
      (∀ a ∈ images, ∃ b ∈ removeDuplicateImages images,
        urlKey b.downloadUrl = urlKey a.downloadUrl) ∧
      (∀ b ∈ removeDuplicateImages images,
        images.find? (fun x => decide (urlKey x.downloadUrl = urlKey b.downloadUrl)) =
          some b)) ∧
    removeDuplicateImages
        [⟨"A", "", "https://x/y.jpg?w=1", "", "", [], "", none, 0, 0⟩,
         ⟨"B", "", "https://x/y.jpg?w=2", "", "", [], "", none, 0, 0⟩] =
      [⟨"A", "", "https://x/y.jpg?w=1", "", "", [], "", none, 0, 0⟩] := by
  constructor
  · intro images
    refine ⟨removeDuplicateImagesGo_sublist images [],
      removeDuplicateImagesGo_pairwise images [], ?_, ?_⟩
    · intro a ha
      rcases removeDuplicateImagesGo_covers images [] a ha with hseen | hex
      · simp at hseen
      · exact hex
    · intro b hb
      exact (removeDuplicateImagesGo_first images [] b hb).2
  · decide

/-! ## Claim C6 -/

/-- C6: whenever the Gemini call throws or its response lacks the expected
structure (`GeminiCallOutcome.failed`), `generateWithGemini` returns the
fixed fallback package, whose titles, script, b-roll keywords, image
concepts and editing guide are all non-empty. -/
theorem generateWithGemini_fallback (topic format : String) :
    generateWithGemini topic format .failed = geminiFallback topic ∧
    (geminiFallback topic).titles ≠ [] ∧
    (geminiFallback topic).script ≠ "" ∧
    (geminiFallback topic).brollKeywords ≠ [] ∧
    (geminiFallback topic).imageConcepts ≠ [] ∧
    (geminiFallback topic).editingGuide ≠ "" := by
  refine ⟨rfl, by simp [geminiFallback], ?_, by simp [geminiFallback], by simp [geminiFallback],
    by simp [geminiFallback]⟩
  intro h
  have h2 := congrArg String.length h
  simp only [geminiFallback, String.length_append] at h2
  have hi : fallbackScriptIntro.length ≠ 0 := by decide
  rw [show ("" : String).length = 0 from rfl] at h2
  omega

/-! ## Claim C7 -/

/-- C7 counterexample: `calculateSimilarity` itself performs no
normalization; on the spec's example pair (differing only in the case of
the first token) it returns 3/5, not 1. -/
theorem calculateSimilarity_case_sensitive :
    calculateSimilarity "AI breakthrough announced today" "ai breakthrough announced today" =
      3 / 5 ∧
    (3 : ℚ) / 5 ≠ 1 := by
  constructor
  · have h1 : List.filter
        (fun x => decide (x ∈ jsSet (jsSplit ' ' "ai breakthrough announced today")))
        (jsSet (jsSplit ' ' "AI breakthrough announced today")) =
        ["breakthrough", "announced", "today"] := by decide
    have h2 : jsSet (jsSet (jsSplit ' ' "AI breakthrough announced today") ++
        jsSet (jsSplit ' ' "ai breakthrough announced today")) =
        ["AI", "breakthrough", "announced", "today", "ai"] := by decide
    simp only [calculateSimilarity, h1, h2]
    norm_num
  · norm_num

/-- C7 (amended): it is the dedup loop's title normalization (lowercase,
strip non-word characters, trim) that maps the two example titles to the
same string, and on the normalized pair the similarity is 1. -/
theorem calculateSimilarity_normalized_pair :
    normalizeTitle "AI breakthrough announced today" = "ai breakthrough announced today" ∧
    normalizeTitle "ai breakthrough announced today" = "ai breakthrough announced today" ∧
    calculateSimilarity (normalizeTitle "AI breakthrough announced today")
        (normalizeTitle "ai breakthrough announced today") = 1 := by
  have e1 : normalizeTitle "AI breakthrough announced today" =
      "ai breakthrough announced today" := by decide
  have e2 : normalizeTitle "ai breakthrough announced today" =
      "ai breakthrough announced today" := by decide
  refine ⟨e1, e2, ?_⟩
  rw [e1, e2]
  have h1 : List.filter
      (fun x => decide (x ∈ jsSet (jsSplit ' ' "ai breakthrough announced today")))
      (jsSet (jsSplit ' ' "ai breakthrough announced today")) =
      ["ai", "breakthrough", "announced", "today"] := by decide
  have h2 : jsSet (jsSet (jsSplit ' ' "ai breakthrough announced today") ++
      jsSet (jsSplit ' ' "ai breakthrough announced today")) =
      ["ai", "breakthrough", "announced", "today"] := by decide
  simp only [calculateSimilarity, h1, h2]
  norm_num

/-! ## Claim C8 -/

/-- C8: when every Gemini model probe comes back HTTP 403, the credential
test endpoint answers `success = false` with the configured quota/permission
message (stored from the first, preferred model's failure). -/
theorem testConnection_gemini_403 (key st : String) (hkey : key ≠ "")
    (probe : String → ProbeOutcome) (hp : ∀ m, probe m = .httpError 403 st)
    (hf px : ProbeOutcome) :
    testConnectionPOST "gemini" (some key) probe hf px =
      { success := false,
        error := "API key does not have permission or quota exceeded" } := by
  have hmsg : geminiStatusMessage 403 st =
      "API key does not have permission or quota exceeded" := by
    simp [geminiStatusMessage]
  simp [testConnectionPOST, hkey, testGeminiConnection, modelsToTry, testGeminiGo, hp, hmsg]

/-- Witness for C8: a concrete key whose probes all yield 403. -/
theorem testConnection_gemini_403_witness :
    testConnectionPOST "gemini" (some "k") (fun _ => .httpError 403 "Forbidden")
        (.ok true) (.ok true) =
      { success := false,
        error := "API key does not have permission or quota exceeded" } :=
  testConnection_gemini_403 "k" "Forbidden" (by decide)
    (fun _ => .httpError 403 "Forbidden") (fun _ => rfl) (.ok true) (.ok true)

/-! ## Claim C9 -/

/-- C9 counterexample: with only 3 b-roll videos ahead of the images, the
archive entry at position 3 holds an image payload yet is named with the
video extension — the `mp4`/`png` cutoff is the fixed index 5, not the
number of video payloads. -/
theorem createVisualsZip_fixed_cutoff :
    (downloadBrollVideos ["city", "ocean", "forest"]).length = 3 ∧
    (createVisualsZip (downloadBrollVideos ["city", "ocean", "forest"] ++
        generateAIImages ["c1", "c2", "c3", "c4", "c5"]))[3]? =
      some ("asset_4.mp4", "mock-image-data") := by
  constructor
  · rfl
  · rfl

/-- C9 (amended): every archive entry at position `i` is named
`asset_(i+1)` with extension `mp4` for `i < 5` and `png` otherwise,
independently of how many of the payloads are videos; since
`downloadBrollVideos` yields `min 5 k` payloads for `k` keywords, the
position-based rule coincides with "first N are video, rest are image"
exactly when 5 video payloads are present. -/
theorem createVisualsZip_names (assets : List String) (i : Nat) :
    (createVisualsZip assets)[i]? =
      (assets[i]?).map (fun a =>
        ("asset_" ++ toString (i + 1) ++ "." ++ (if i < 5 then "mp4" else "png"), a)) ∧
    ∀ keywords : List String, (downloadBrollVideos keywords).length = min 5 keywords.length := by
  constructor
  · have h := createVisualsZipGo_getElem? assets 0 i
    simpa using h
  · intro keywords
    simp [downloadBrollVideos]

/-! ## Claim C10 -/

/-- C10: `calculateSimilarity` is total and always lands in [0, 1]; in
particular the token-set union in its denominator is never empty, because
splitting any JS string on spaces yields at least one token. -/
theorem calculateSimilarity_unit_interval (s1 s2 : String) :
    0 ≤ calculateSimilarity s1 s2 ∧ calculateSimilarity s1 s2 ≤ 1 ∧
    (jsSet (jsSet (jsSplit ' ' s1) ++ jsSet (jsSplit ' ' s2))).length ≠ 0 := by
  refine ⟨calculateSimilarity_nonneg s1 s2, calculateSimilarity_le_one s1 s2, ?_⟩
  rw [length_union_jsSet]
  exact (unionCard_pos s1 s2).ne'

end TTL
